import Mathlib

/-!
Shallow embedding of the aioservicekit library (group.py, service.py,
events.py, chanels.py) and proofs about its observable behaviour.

Modelling conventions:
- Python exceptions are threaded explicitly through Except / Option PyError.
- asyncio task handles are abstract Nat identifiers.
- A suspension point that completes later is recorded as an explicit outcome
  value rather than as real concurrency; traces of observable actions record
  the order in which the source performs its steps.
-/

namespace Aioservicekit

/-- Python exception values that the embedded code can raise. -/
inductive PyError where
  | typeError (msg : String)
  | valueError (msg : String)
  | eventClosedError
  | chanelCloused
  | chanelCustomerCloused
  | cancelledError
  deriving DecidableEq, Repr

/--
Semantics of the call asyncio.wait(*args) as written in group.py, where the
set of tasks is unpacked into separate positional arguments. CPython defines
wait(fs, *, timeout=None, return_when=ALL_COMPLETED):
- zero positional arguments: TypeError, missing required argument fs;
- one positional argument, a Task: TypeError, since fs must be an iterable
  of futures, not a single Future or Task;
- two or more positional arguments: TypeError, since timeout and return_when
  are keyword-only.
On success it would return the pair of done and pending task sets.
-/
def asyncioWaitSpread (args : List Nat) : Except PyError (List Nat × List Nat) :=
  match args with
  | [] => Except.error (PyError.typeError "wait missing required argument")
  | [_] => Except.error (PyError.typeError "expect a list of futures, not Task")
  | _ => Except.error (PyError.typeError "wait takes 1 positional argument")

/-- group.py TaskGroup: the two bookkeeping sets of task handles. -/
structure TaskGroup where
  tasks : List Nat
  uncanceliable_tasks : List Nat
  deriving DecidableEq, Repr

/-- group.py TaskGroup.create_task: register a new task handle in the
cancellable or uncancellable set depending on the canceliable flag. -/
def TaskGroup.create_task (g : TaskGroup) (t : Nat) (canceliable : Bool) : TaskGroup :=
  if canceliable then { g with tasks := g.tasks ++ [t] }
  else { g with uncanceliable_tasks := g.uncanceliable_tasks ++ [t] }

/-- A done callback removes a finished task from whichever set holds it. -/
def TaskGroup.taskDone (g : TaskGroup) (t : Nat) : TaskGroup :=
  ⟨g.tasks.filter (fun x => x != t), g.uncanceliable_tasks.filter (fun x => x != t)⟩

/-- group.py TaskGroup.cancel: requests cancellation of every task currently
in the cancellable set and returns the handles that received the request;
the bookkeeping sets are not modified (removal only happens in the done
callback once a task actually finishes). -/
def TaskGroup.cancel (g : TaskGroup) : List Nat :=
  g.tasks

/--
The while-True loop inside group.py TaskGroup.wait, with explicit fuel.
Each iteration performs: await asyncio.wait(*self.__tasks), absorbing
asyncio.CancelledError (the except clause) and looping again; on success it
breaks once nothing is pending; any other exception propagates.
none means the loop did not settle within the given fuel.
-/
def TaskGroup.waitLoop (g : TaskGroup) : Nat → Option (Except PyError Unit)
  | 0 => none
  | n + 1 =>
    match asyncioWaitSpread g.tasks with
    | Except.error PyError.cancelledError => g.waitLoop n
    | Except.error e => some (Except.error e)
    | Except.ok (_, pending) =>
      if pending.length = 0 then some (Except.ok ()) else g.waitLoop n

/--
group.py TaskGroup.wait: returns immediately when both sets are empty;
otherwise runs the loop over the cancellable set and finally awaits
asyncio.wait(*self.__uncanceliable_tasks) outside any try block.
-/
def TaskGroup.wait (g : TaskGroup) (fuel : Nat) : Option (Except PyError Unit) :=
  if g.tasks.length = 0 ∧ g.uncanceliable_tasks.length = 0 then some (Except.ok ())
  else
    match g.waitLoop fuel with
    | none => none
    | some (Except.error e) => some (Except.error e)
    | some (Except.ok _) =>
      match asyncioWaitSpread g.uncanceliable_tasks with
      | Except.error e => some (Except.error e)
      | Except.ok _ => some (Except.ok ())

/-- asyncioWaitSpread never succeeds and never reports cancellation: every
possible argument shape is rejected with a TypeError. -/
lemma asyncioWaitSpread_typeError (l : List Nat) :
    ∃ msg, asyncioWaitSpread l = Except.error (PyError.typeError msg) := by
  match l with
  | [] => exact ⟨_, rfl⟩
  | [_] => exact ⟨_, rfl⟩
  | _ :: _ :: _ => exact ⟨_, rfl⟩

/-- With at least one unit of fuel, the wait loop settles on the very first
iteration: the malformed asyncio.wait call raises TypeError at once. -/
lemma TaskGroup.waitLoop_succ (g : TaskGroup) (n : Nat) :
    ∃ msg, g.waitLoop (n + 1) = some (Except.error (PyError.typeError msg)) := by
  obtain ⟨msg, hmsg⟩ := asyncioWaitSpread_typeError g.tasks
  exact ⟨msg, by simp [TaskGroup.waitLoop, hmsg]⟩

/-- When both bookkeeping sets are empty, wait returns normally. -/
lemma TaskGroup.wait_empty (g : TaskGroup) (fuel : Nat)
    (h1 : g.tasks = []) (h2 : g.uncanceliable_tasks = []) :
    g.wait fuel = some (Except.ok ()) := by
  simp [TaskGroup.wait, h1, h2]

/-- When any task is registered, wait raises a TypeError with one unit of
fuel or more, before ever waiting on anything. -/
lemma TaskGroup.wait_nonempty (g : TaskGroup) (fuel : Nat)
    (h : ¬(g.tasks = [] ∧ g.uncanceliable_tasks = [])) :
    ∃ msg, g.wait (fuel + 1) = some (Except.error (PyError.typeError msg)) := by
  obtain ⟨msg, hmsg⟩ := g.waitLoop_succ fuel
  refine ⟨msg, ?_⟩
  have hlen : ¬(g.tasks.length = 0 ∧ g.uncanceliable_tasks.length = 0) := by
    simpa [List.length_eq_zero] using h
  simp [TaskGroup.wait, hlen, hmsg]
  exact fun h1 h2 => h ⟨h1, h2⟩

/--
C2: the claim states that TaskGroup.wait suspends until every registered
task has completed, absorbing cancellation of the waiter. The code instead
calls asyncio.wait with the task set unpacked into positional arguments, so
whenever any task is registered the call raises TypeError immediately: with
one cancellable task the single Task is rejected as not being an iterable of
futures; with two cancellable tasks the extra positional argument is
rejected; with only uncancellable tasks the loop first calls asyncio.wait
with no arguments at all. Only the trivial case of both sets empty returns
normally.
-/
theorem taskGroup_wait_raises_typeError :
    (TaskGroup.wait ⟨[4], []⟩ 1
      = some (Except.error (PyError.typeError "expect a list of futures, not Task")))
    ∧ (TaskGroup.wait ⟨[4, 5], []⟩ 1
      = some (Except.error (PyError.typeError "wait takes 1 positional argument")))
    ∧ (TaskGroup.wait ⟨[], [6]⟩ 1
      = some (Except.error (PyError.typeError "wait missing required argument")))
    ∧ (TaskGroup.wait ⟨[], []⟩ 1 = some (Except.ok ())) :=
  ⟨rfl, rfl, rfl, rfl⟩

/-- service.py ServiceState, with the spelling of the source. -/
inductive ServiceState where
  | STARTING
  | RUNNING
  | STOPING
  | STOPED
  deriving DecidableEq, Repr

/-- service.py AbscractService instance state: __state, __main (the main
task handle), __waiter (true when the asyncio.Event is set) and the
inherited TaskGroup bookkeeping. -/
structure Service where
  state : ServiceState
  main : Option Nat
  waiter : Bool
  group : TaskGroup
  deriving DecidableEq, Repr

/-- Observable actions performed by the service lifecycle methods, in the
order the source performs them. notifyState records a __set_state call:
the state field is assigned and the state-change event is emitted with the
service as argument, so observers see the recorded state together with the
value the main-task handle has at that moment. -/
inductive SAction where
  | waiterClear
  | notifyState (s : ServiceState) (main : Option Nat)
  | startHook
  | shutdownSubscribe
  | shutdownUnsubscribe
  | stopHook
  | mainSpawn (t : Nat)
  | mainAwait (t : Nat)
  | groupCancel (ts : List Nat)
  | groupWait
  | mainClear
  | waiterSet
  deriving DecidableEq, Repr

/-- service.py AbscractService.is_stoped. -/
def Service.is_stoped (svc : Service) : Bool :=
  svc.state == ServiceState.STOPED

/-- service.py AbscractService.is_running. -/
def Service.is_running (svc : Service) : Bool :=
  svc.state == ServiceState.RUNNING

/-- service.py AbscractService.__set_state: assign the state field, then
emit the state-change event (the emitted notification carries the service
itself, whose main-task handle observers can read). -/
def Service.set_state (svc : Service) (s : ServiceState) : Service × SAction :=
  ({ svc with state := s }, SAction.notifyState s svc.main)

/-- service.py AbscractService.__init__: name set, state STOPED, a fresh
unset waiter event, empty TaskGroup. -/
def Service.mk_new : Service :=
  ⟨ServiceState.STOPED, none, false, ⟨[], []⟩⟩

/--
service.py AbscractService.start, with t the handle of the task the runtime
creates for __work__. Guarded by is_stoped; the sequence is: clear the
waiter, set state STARTING (notify), run the __start__ hook (awaited when
it is awaitable), subscribe __on_shutdown to the global shutdown event, set
state RUNNING (notify), then create the main task and store its handle.
-/
def Service.start (svc : Service) (t : Nat) : Service × List SAction :=
  if svc.is_stoped then
    let svc0 := { svc with waiter := false }
    let p1 := svc0.set_state ServiceState.STARTING
    let p2 := p1.1.set_state ServiceState.RUNNING
    let svc3 := { p2.1 with main := some t }
    (svc3,
      [SAction.waiterClear, p1.2, SAction.startHook, SAction.shutdownSubscribe,
        p2.2, SAction.mainSpawn t])
  else (svc, [])

/--
service.py AbscractService.stop. Guarded by is_running; the sequence is:
set state STOPING (notify), unsubscribe __on_shutdown from the shutdown
event, run the __stop__ hook (awaited when awaitable), await the main task,
call TaskGroup.cancel, await TaskGroup.wait, clear the main-task handle,
set state STOPED (notify), set the waiter event. An exception from
TaskGroup.wait propagates, leaving the fields mutated so far in place; the
recorded groupWait action marks a TaskGroup.wait call that returned
normally. Awaiting a None main handle would itself raise TypeError.
Returns none when the group wait fuel runs out, otherwise the raised
exception (if any), the resulting service state and the action trace.
-/
def Service.stop (svc : Service) (fuel : Nat) :
    Option (Option PyError × Service × List SAction) :=
  if svc.is_running then
    let p1 := svc.set_state ServiceState.STOPING
    let svc1 := p1.1
    match svc1.main with
    | none =>
      some (some (PyError.typeError "object NoneType cannot be awaited"), svc1,
        [p1.2, SAction.shutdownUnsubscribe, SAction.stopHook])
    | some m =>
      let tr0 := [p1.2, SAction.shutdownUnsubscribe, SAction.stopHook,
        SAction.mainAwait m, SAction.groupCancel svc1.group.cancel]
      match svc1.group.wait fuel with
      | none => none
      | some (Except.error e) => some (some e, svc1, tr0)
      | some (Except.ok _) =>
        let svc2 := { svc1 with main := none }
        let p2 := svc2.set_state ServiceState.STOPED
        let svc3 := { p2.1 with waiter := true }
        some (none, svc3,
          tr0 ++ [SAction.groupWait, SAction.mainClear, p2.2, SAction.waiterSet])
  else some (none, svc, [])

/-- service.py AbscractService.restart: when running, stop then start; when
stop raises, the exception propagates and start is not reached. -/
def Service.restart (svc : Service) (t : Nat) (fuel : Nat) :
    Option (Option PyError × Service × List SAction) :=
  if svc.is_running then
    match svc.stop fuel with
    | none => none
    | some (some e, svc1, tr) => some (some e, svc1, tr)
    | some (none, svc1, tr) =>
      let p := svc1.start t
      some (none, p.1, tr ++ p.2)
  else some (none, svc, [])

/--
C1 failing input: a RUNNING service whose TaskGroup holds one cancellable
task. stop sets state STOPING (notifying observers), unsubscribes from the
shutdown event, runs the stop hook, awaits the main task and requests
cancellation of the group tasks, but then TaskGroup.wait raises TypeError
(asyncio.wait called with the task set unpacked into positional arguments),
so the main-task handle is never cleared, STOPED is never reached and the
waiter is never set. With an empty TaskGroup the full claimed sequence is
performed in order, and on a non-RUNNING service stop is a no-op.
-/
theorem service_stop_raises_typeError_with_tasks :
    (Service.stop ⟨ServiceState.RUNNING, some 3, false, ⟨[9], []⟩⟩ 1
      = some (some (PyError.typeError "expect a list of futures, not Task"),
          ⟨ServiceState.STOPING, some 3, false, ⟨[9], []⟩⟩,
          [SAction.notifyState ServiceState.STOPING (some 3),
            SAction.shutdownUnsubscribe, SAction.stopHook, SAction.mainAwait 3,
            SAction.groupCancel [9]]))
    ∧ (Service.stop ⟨ServiceState.RUNNING, some 3, false, ⟨[], []⟩⟩ 1
      = some (none, ⟨ServiceState.STOPED, none, true, ⟨[], []⟩⟩,
          [SAction.notifyState ServiceState.STOPING (some 3),
            SAction.shutdownUnsubscribe, SAction.stopHook, SAction.mainAwait 3,
            SAction.groupCancel [], SAction.groupWait, SAction.mainClear,
            SAction.notifyState ServiceState.STOPED none, SAction.waiterSet]))
    ∧ (Service.stop ⟨ServiceState.STOPED, none, true, ⟨[], []⟩⟩ 1
      = some (none, ⟨ServiceState.STOPED, none, true, ⟨[], []⟩⟩, []))
    ∧ (Service.stop ⟨ServiceState.STARTING, none, false, ⟨[], []⟩⟩ 1
      = some (none, ⟨ServiceState.STARTING, none, false, ⟨[], []⟩⟩, [])) :=
  ⟨rfl, rfl, rfl, rfl⟩

/-- Public drivers of a service that a caller can invoke, plus the two
TaskGroup bookkeeping events (a background task being spawned through
create_task, and a task finishing, which removes it from its set). -/
inductive SOp where
  | startOp (t : Nat)
  | stopOp
  | restartOp (t : Nat)
  | spawnOp (t : Nat) (canceliable : Bool)
  | doneOp (t : Nat)
  deriving DecidableEq, Repr

/-- Run one operation. stop and restart are run with fuel 1, which is
sufficient: the group wait always settles on its first loop iteration. -/
def Service.runOp (svc : Service) (op : SOp) : Service × List SAction :=
  match op with
  | SOp.startOp t => svc.start t
  | SOp.stopOp =>
    match svc.stop 1 with
    | none => (svc, [])
    | some (_, svc1, tr) => (svc1, tr)
  | SOp.restartOp t =>
    match svc.restart t 1 with
    | none => (svc, [])
    | some (_, svc1, tr) => (svc1, tr)
  | SOp.spawnOp t c => ({ svc with group := svc.group.create_task t c }, [])
  | SOp.doneOp t => ({ svc with group := svc.group.taskDone t }, [])

/-- Run a sequence of operations, concatenating the action traces. -/
def Service.runOps (svc : Service) : List SOp → Service × List SAction
  | [] => (svc, [])
  | op :: rest =>
    let p := svc.runOp op
    let q := p.1.runOps rest
    (q.1, p.2 ++ q.2)

/-- Project a state-change notification out of an action. -/
def SAction.notifOf : SAction → Option (ServiceState × Option Nat)
  | SAction.notifyState s m => some (s, m)
  | _ => none

/-- The state-change notifications delivered along a trace, each carrying
the new state and the main-task handle observable at that moment. -/
def notifs (tr : List SAction) : List (ServiceState × Option Nat) :=
  tr.filterMap SAction.notifOf

/-- Successor along the cyclic lifecycle STOPED, STARTING, RUNNING,
STOPING, STOPED. -/
def nextState : ServiceState → ServiceState
  | ServiceState.STOPED => ServiceState.STARTING
  | ServiceState.STARTING => ServiceState.RUNNING
  | ServiceState.RUNNING => ServiceState.STOPING
  | ServiceState.STOPING => ServiceState.STOPED

/-- Check that each state in the list is the cycle successor of the one
before it, starting from prev. -/
def chainOk : ServiceState → List ServiceState → Bool
  | _, [] => true
  | prev, s :: rest => (nextState prev == s) && chainOk s rest

/-- The main-task handle is non-null exactly in states RUNNING and STOPING,
as observed at a notification point. -/
def notifMainIffRunningOrStoping (p : ServiceState × Option Nat) : Bool :=
  p.2.isSome == (p.1 == ServiceState.RUNNING || p.1 == ServiceState.STOPING)

/-- What actually holds at notification points: the handle is non-null
exactly at the STOPING notification. -/
def notifMainIffStoping (p : ServiceState × Option Nat) : Bool :=
  p.2.isSome == (p.1 == ServiceState.STOPING)

/-- The main-task handle is non-null exactly in states RUNNING and STOPING,
as a property of a quiescent service value. -/
def mainStateIff (svc : Service) : Bool :=
  svc.main.isSome == (svc.state == ServiceState.RUNNING || svc.state == ServiceState.STOPING)

/--
C3 counterexample: starting the freshly constructed service delivers the
RUNNING notification while the main-task handle is still null, because
start assigns the handle only after __set_state(RUNNING) has emitted; so
the claimed iff between a non-null handle and being in RUNNING or STOPING
fails at that observable point.
-/
theorem service_start_notifies_running_with_null_main :
    ((notifs (Service.mk_new.start 7).2).all notifMainIffRunningOrStoping) = false := by
  decide

lemma notifs_append (a b : List SAction) : notifs (a ++ b) = notifs a ++ notifs b :=
  List.filterMap_append a b SAction.notifOf

lemma chainOk_append (p : ServiceState) (xs ys : List ServiceState) :
    chainOk p (xs ++ ys) = (chainOk p xs && chainOk (xs.getLastD p) ys) := by
  induction xs generalizing p with
  | nil => simp [chainOk]
  | cons x xs ih =>
    simp only [List.cons_append, chainOk, List.append_eq, ih, List.getLastD_cons,
      Bool.and_assoc]

/-- One lifecycle operation preserves the quiescent handle-state iff,
produces only cycle-respecting notifications whose observable handle is
non-null exactly at STOPING, and leaves the service in the state of the
last notification it delivered (or unchanged when it delivered none). -/
lemma runOp_good (svc : Service) (op : SOp) (h : mainStateIff svc = true) :
    chainOk svc.state ((notifs (svc.runOp op).2).map Prod.fst) = true
    ∧ (notifs (svc.runOp op).2).all notifMainIffStoping = true
    ∧ mainStateIff (svc.runOp op).1 = true
    ∧ (svc.runOp op).1.state
        = ((notifs (svc.runOp op).2).map Prod.fst).getLastD svc.state := by
  obtain ⟨st, mn, w, g⟩ := svc
  cases op with
  | startOp t =>
    cases st <;> cases mn <;>
      simp_all [Service.runOp, Service.start, Service.is_stoped, Service.set_state,
        mainStateIff, notifs, SAction.notifOf, chainOk, nextState, notifMainIffStoping]
  | stopOp =>
    cases st <;> cases mn <;>
      first
      | simp_all [Service.runOp, Service.stop, Service.is_running, Service.set_state,
          mainStateIff, notifs, SAction.notifOf, chainOk, nextState, notifMainIffStoping]
      | skip
    case RUNNING.some m =>
      by_cases hg : g.tasks = [] ∧ g.uncanceliable_tasks = []
      · have hw := TaskGroup.wait_empty g 1 hg.1 hg.2
        simp_all [Service.runOp, Service.stop, Service.is_running, Service.set_state,
          mainStateIff, notifs, SAction.notifOf, chainOk, nextState, notifMainIffStoping]
      · obtain ⟨msg, hw⟩ := TaskGroup.wait_nonempty g 0 hg
        simp_all [Service.runOp, Service.stop, Service.is_running, Service.set_state,
          mainStateIff, notifs, SAction.notifOf, chainOk, nextState, notifMainIffStoping]
  | restartOp t =>
    cases st <;> cases mn <;>
      first
      | simp_all [Service.runOp, Service.restart, Service.stop, Service.start,
          Service.is_running, Service.is_stoped, Service.set_state,
          mainStateIff, notifs, SAction.notifOf, chainOk, nextState, notifMainIffStoping]
      | skip
    case RUNNING.some m =>
      by_cases hg : g.tasks = [] ∧ g.uncanceliable_tasks = []
      · have hw := TaskGroup.wait_empty g 1 hg.1 hg.2
        simp_all [Service.runOp, Service.restart, Service.stop, Service.start,
          Service.is_running, Service.is_stoped, Service.set_state,
          mainStateIff, notifs, SAction.notifOf, chainOk, nextState, notifMainIffStoping]
      · obtain ⟨msg, hw⟩ := TaskGroup.wait_nonempty g 0 hg
        simp_all [Service.runOp, Service.restart, Service.stop, Service.start,
          Service.is_running, Service.is_stoped, Service.set_state,
          mainStateIff, notifs, SAction.notifOf, chainOk, nextState, notifMainIffStoping]
  | spawnOp t c =>
    simp_all [Service.runOp, mainStateIff, notifs, chainOk]
  | doneOp t =>
    simp_all [Service.runOp, mainStateIff, notifs, chainOk]

/-- Any sequence of lifecycle operations from a service satisfying the
quiescent iff yields a cycle-respecting notification chain, notifications
whose handle is non-null exactly at STOPING, and preserves the iff. -/
lemma runOps_good (svc : Service) (h : mainStateIff svc = true) (ops : List SOp) :
    chainOk svc.state ((notifs (svc.runOps ops).2).map Prod.fst) = true
    ∧ (notifs (svc.runOps ops).2).all notifMainIffStoping = true
    ∧ mainStateIff (svc.runOps ops).1 = true := by
  induction ops generalizing svc with
  | nil => simpa [Service.runOps, notifs, chainOk] using h
  | cons op rest ih =>
    obtain ⟨h1, h2, h3, h4⟩ := runOp_good svc op h
    obtain ⟨g1, g2, g3⟩ := ih (svc.runOp op).1 h3
    have hsplit : (svc.runOps (op :: rest)).2
        = (svc.runOp op).2 ++ ((svc.runOp op).1.runOps rest).2 := rfl
    have hfst : (svc.runOps (op :: rest)).1 = ((svc.runOp op).1.runOps rest).1 := rfl
    refine ⟨?_, ?_, ?_⟩
    · rw [hsplit, notifs_append, List.map_append, chainOk_append, ← h4, h1, g1]; rfl
    · rw [hsplit, notifs_append, List.all_append, h2, g2]; rfl
    · rw [hfst]; exact g3

/--
C3 amended: for every sequence of start, stop and restart calls (and of
background-task spawns and completions) from a freshly constructed service,
the state field only ever transitions along the cycle STOPED, STARTING,
RUNNING, STOPING, STOPED; at every quiescent point the main-task handle is
non-null iff the state is RUNNING or STOPING; but at a state-change
notification the handle observable by the notified callbacks is non-null
iff the new state is STOPING — in particular at the RUNNING notification
during start the handle is still null, being assigned only after that
notification is delivered.
-/
theorem service_lifecycle_cycle_and_main_invariant (ops : List SOp) :
    chainOk ServiceState.STOPED
        ((notifs (Service.mk_new.runOps ops).2).map Prod.fst) = true
    ∧ (notifs (Service.mk_new.runOps ops).2).all notifMainIffStoping = true
    ∧ mainStateIff (Service.mk_new.runOps ops).1 = true :=
  runOps_good Service.mk_new (by decide) ops

/-- What a registered listener does when invoked: return normally or raise
(synchronously), or return an awaitable that later completes normally or
raises. -/
inductive ListenerBehavior where
  | syncOk
  | syncRaise
  | asyncOk
  | asyncRaise
  deriving DecidableEq, Repr

/-- A listener callable: identified by the identity Python set membership
uses, together with its behaviour when invoked. -/
structure Listener where
  id : Nat
  behavior : ListenerBehavior
  deriving DecidableEq, Repr

/-- events.py Event: the closed flag and the set of registered listeners.
The Python set is modelled as a list without duplicate identities; addition
deduplicates by identity. -/
structure Event where
  closed : Bool
  listeners : List Listener
  deriving DecidableEq, Repr

/-- Steps observable while Event.__emit__ executes one emit call: each
listener is called; a synchronous exception is swallowed by the except
clause in the loop; an awaitable result is wrapped and run as a task; an
exception inside the awaitable is swallowed by __async_emit_wrapper__. -/
inductive EmitStep where
  | called (id : Nat)
  | syncExcSwallowed (id : Nat)
  | taskSpawned (id : Nat)
  | asyncExcSwallowed (id : Nat)
  deriving DecidableEq, Repr

/-- The steps one listener contributes to an emit call. In every behaviour
the listener is called exactly once and no exception escapes. -/
def listenerSteps (l : Listener) : List EmitStep :=
  match l.behavior with
  | ListenerBehavior.syncOk => [EmitStep.called l.id]
  | ListenerBehavior.syncRaise => [EmitStep.called l.id, EmitStep.syncExcSwallowed l.id]
  | ListenerBehavior.asyncOk => [EmitStep.called l.id, EmitStep.taskSpawned l.id]
  | ListenerBehavior.asyncRaise =>
    [EmitStep.called l.id, EmitStep.taskSpawned l.id, EmitStep.asyncExcSwallowed l.id]

/-- events.py Event.__emit__: iterate over the registered listeners inside
a task group, isolating each failure. -/
def Event.emitInner (e : Event) : List EmitStep :=
  (e.listeners.map listenerSteps).flatten

/-- events.py Event.emit: raise EventClosedError when closed, otherwise run
__emit__ and return the steps it performed. -/
def Event.emit (e : Event) : Except PyError (List EmitStep) :=
  if e.closed then Except.error PyError.eventClosedError
  else Except.ok e.emitInner

/-- events.py Event.add_listener: raise EventClosedError when closed;
otherwise add the callable to the listener set (set addition: a listener
already present by identity is not duplicated). -/
def Event.add_listener (e : Event) (l : Listener) : Except PyError Event :=
  if e.closed then Except.error PyError.eventClosedError
  else if e.listeners.any (fun x => x.id == l.id) then Except.ok e
  else Except.ok { e with listeners := e.listeners ++ [l] }

/-- events.py Event.remove_listener: set.discard, never raises. -/
def Event.remove_listener (e : Event) (l : Listener) : Event :=
  { e with listeners := e.listeners.filter (fun x => x.id != l.id) }

/-- events.py Event.close: return immediately when already closed,
otherwise set the flag and clear the listener set. -/
def Event.close (e : Event) : Event :=
  if e.closed then e else ⟨true, []⟩

/-- Operations a caller can perform on an Event after some point in its
lifetime. -/
inductive EOp where
  | addL (l : Listener)
  | removeL (l : Listener)
  | emitE
  | closeE
  deriving DecidableEq, Repr

/-- Effect of one operation on the Event bookkeeping state; a raised
EventClosedError propagates to the caller and leaves the state unchanged,
and emit never changes the listener set. -/
def Event.runEOp (e : Event) : EOp → Event
  | EOp.addL l =>
    match e.add_listener l with
    | Except.error _ => e
    | Except.ok e1 => e1
  | EOp.removeL l => e.remove_listener l
  | EOp.emitE => e
  | EOp.closeE => e.close

/-- Run a sequence of Event operations. -/
def Event.runEOps (e : Event) : List EOp → Event
  | [] => e
  | op :: rest => (e.runEOp op).runEOps rest

/-- The identity a called step records, used to count invocations. -/
def calledId : EmitStep → Option Nat
  | EmitStep.called i => some i
  | _ => none

lemma listenerSteps_calledId (l : Listener) :
    (listenerSteps l).filterMap calledId = [l.id] := by
  cases hb : l.behavior <;> simp [listenerSteps, hb, calledId]

/--
C6: emitting an open Event invokes every currently registered listener
exactly once — the called steps are exactly the listener identities, in
registration order — and no listener failure escapes: the emit call returns
normally whatever mix of synchronous raisers, asynchronous raisers and
well-behaved listeners is registered.
-/
theorem event_emit_invokes_all_isolating_failures (e : Event) (h : e.closed = false) :
    ∃ steps, e.emit = Except.ok steps
      ∧ steps.filterMap calledId = e.listeners.map Listener.id := by
  refine ⟨e.emitInner, by simp [Event.emit, h], ?_⟩
  unfold Event.emitInner
  induction e.listeners with
  | nil => simp
  | cons l rest ih => simp [listenerSteps_calledId, ih]

/-- Witness for the emit theorem: an open event with a synchronously
raising, an asynchronously raising and a well-behaved listener still calls
identities 0, 1, 2 exactly once and returns normally. -/
theorem event_emit_invokes_all_isolating_failures_witness :
    ∃ steps,
      Event.emit ⟨false, [⟨0, ListenerBehavior.syncRaise⟩,
        ⟨1, ListenerBehavior.asyncRaise⟩, ⟨2, ListenerBehavior.syncOk⟩]⟩
        = Except.ok steps
      ∧ steps.filterMap calledId = [0, 1, 2] :=
  event_emit_invokes_all_isolating_failures
    ⟨false, [⟨0, ListenerBehavior.syncRaise⟩, ⟨1, ListenerBehavior.asyncRaise⟩,
      ⟨2, ListenerBehavior.syncOk⟩]⟩ rfl

lemma runEOps_closed_empty (e : Event) (hc : e.closed = true) (hl : e.listeners = [])
    (ops : List EOp) :
    (e.runEOps ops).closed = true ∧ (e.runEOps ops).listeners = [] := by
  induction ops generalizing e with
  | nil => exact ⟨hc, hl⟩
  | cons op rest ih =>
    have hstep : (e.runEOp op).closed = true ∧ (e.runEOp op).listeners = [] := by
      cases op <;>
        simp [Event.runEOp, Event.add_listener, Event.remove_listener, Event.close, hc, hl]
    exact ih (e.runEOp op) hstep.1 hstep.2

/--
C8: closing an open Event is idempotent (closing again changes nothing);
after close the event is closed with an empty listener set, add_listener
and emit raise EventClosedError, remove_listener returns harmlessly leaving
the event unchanged, and the listener set remains empty under every further
sequence of add, remove, emit and close operations.
-/
theorem event_close_idempotent_and_final (e : Event) (l : Listener) (ops : List EOp)
    (h : e.closed = false) :
    Event.close (Event.close e) = Event.close e
    ∧ (Event.close e).closed = true
    ∧ (Event.close e).listeners = []
    ∧ (Event.close e).add_listener l = Except.error PyError.eventClosedError
    ∧ (Event.close e).emit = Except.error PyError.eventClosedError
    ∧ (Event.close e).remove_listener l = Event.close e
    ∧ ((Event.close e).runEOps ops).listeners = [] := by
  have hce : Event.close e = ⟨true, []⟩ := by simp [Event.close, h]
  refine ⟨?_, ?_, ?_, ?_, ?_, ?_, ?_⟩
  · rw [hce]; rfl
  · rw [hce]
  · rw [hce]
  · rw [hce]; rfl
  · rw [hce]; rfl
  · rw [hce]; rfl
  · rw [hce]
    exact (runEOps_closed_empty ⟨true, []⟩ rfl rfl ops).2

/-- Witness for the close theorem at an open event with one registered
listener and a subsequent add, emit, remove, close history. -/
theorem event_close_idempotent_and_final_witness :
    Event.close (Event.close ⟨false, [⟨4, ListenerBehavior.syncOk⟩]⟩)
      = Event.close ⟨false, [⟨4, ListenerBehavior.syncOk⟩]⟩
    ∧ (Event.close ⟨false, [⟨4, ListenerBehavior.syncOk⟩]⟩).closed = true
    ∧ (Event.close ⟨false, [⟨4, ListenerBehavior.syncOk⟩]⟩).listeners = []
    ∧ (Event.close ⟨false, [⟨4, ListenerBehavior.syncOk⟩]⟩).add_listener
        ⟨5, ListenerBehavior.syncOk⟩ = Except.error PyError.eventClosedError
    ∧ (Event.close ⟨false, [⟨4, ListenerBehavior.syncOk⟩]⟩).emit
        = Except.error PyError.eventClosedError
    ∧ (Event.close ⟨false, [⟨4, ListenerBehavior.syncOk⟩]⟩).remove_listener
        ⟨5, ListenerBehavior.syncOk⟩ = Event.close ⟨false, [⟨4, ListenerBehavior.syncOk⟩]⟩
    ∧ ((Event.close ⟨false, [⟨4, ListenerBehavior.syncOk⟩]⟩).runEOps
        [EOp.addL ⟨6, ListenerBehavior.syncOk⟩, EOp.emitE,
          EOp.removeL ⟨6, ListenerBehavior.syncOk⟩, EOp.closeE]).listeners = [] :=
  event_close_idempotent_and_final ⟨false, [⟨4, ListenerBehavior.syncOk⟩]⟩
    ⟨5, ListenerBehavior.syncOk⟩
    [EOp.addL ⟨6, ListenerBehavior.syncOk⟩, EOp.emitE,
      EOp.removeL ⟨6, ListenerBehavior.syncOk⟩, EOp.closeE] rfl

/-- service.py line 25: __on_state_change is declared as a CLASS attribute
initialised once with Event(), and no instance ever assigns its own; so one
single Event value is shared by every AbscractService instance in the
process. This structure is that class-level state. -/
structure ServiceClassWorld where
  on_state_change : Event
  deriving DecidableEq, Repr

/-- service.py AbscractService.subscribe, called on the instance inst: it
adds the callback to the class-shared event; inst selects no per-instance
state at all. -/
def AbscractService.subscribe (w : ServiceClassWorld) (inst : Nat) (cb : Listener) :
    Except PyError ServiceClassWorld :=
  match w.on_state_change.add_listener cb with
  | Except.error e => Except.error e
  | Except.ok ev => Except.ok ⟨ev⟩

/-- service.py AbscractService.__set_state on instance inst transitioning
to state s: emits the class-shared event with arguments (self, state), so
every registered listener is invoked with the transitioning instance and
its new state. Returns the invocations as (listener identity, instance,
new state) triples. -/
def AbscractService.set_state_emit (w : ServiceClassWorld) (inst : Nat)
    (s : ServiceState) : Except PyError (List (Nat × Nat × ServiceState)) :=
  if w.on_state_change.closed then Except.error PyError.eventClosedError
  else Except.ok (w.on_state_change.listeners.map (fun l => (l.id, inst, s)))

/--
C4: because __on_state_change is a class attribute, a callback registered
through subscribe on one instance is invoked for the state transitions of
every other instance as well, each invocation carrying the transitioning
instance and its new state: for any two instances a and b (equal or not),
after subscribing cb via a, a transition of b delivers (cb, b, s).
-/
theorem service_state_event_shared_across_instances (cbId : Nat)
    (beh : ListenerBehavior) (a b : Nat) (s : ServiceState) (ls : List Listener) :
    ∃ w1 calls,
      AbscractService.subscribe ⟨⟨false, ls⟩⟩ a ⟨cbId, beh⟩ = Except.ok w1
      ∧ AbscractService.set_state_emit w1 b s = Except.ok calls
      ∧ (cbId, b, s) ∈ calls := by
  by_cases hmem : ls.any (fun x => x.id == cbId)
  · refine ⟨⟨⟨false, ls⟩⟩, ls.map (fun l => (l.id, b, s)), ?_, ?_, ?_⟩
    · simp [AbscractService.subscribe, Event.add_listener, hmem]
    · simp [AbscractService.set_state_emit]
    · obtain ⟨x, hx, hid⟩ := List.any_eq_true.mp hmem
      have hxid : x.id = cbId := by simpa using hid
      exact List.mem_map.mpr ⟨x, hx, by simp [hxid]⟩
  · have hsub : AbscractService.subscribe ⟨⟨false, ls⟩⟩ a ⟨cbId, beh⟩
        = Except.ok ⟨⟨false, ls ++ [Listener.mk cbId beh]⟩⟩ := by
      simp [AbscractService.subscribe, Event.add_listener, hmem]
    refine ⟨⟨⟨false, ls ++ [Listener.mk cbId beh]⟩⟩,
      (ls ++ [Listener.mk cbId beh]).map (fun l => (l.id, b, s)), hsub, ?_, ?_⟩
    · simp [AbscractService.set_state_emit]
    · refine List.mem_map.mpr ⟨Listener.mk cbId beh, ?_, rfl⟩
      simp

/-- chanels.py ChanelCustomer: the bounded FIFO buffer (front of the list
is the next item to be read), its capacity (0 means unbounded, as for
asyncio.Queue), the closed flag, and the identity the channel registry
holds. -/
structure ChanelCustomer (α : Type) where
  id : Nat
  maxsize : Nat
  buffer : List α
  cloused : Bool
  deriving DecidableEq, Repr

/-- How one _send call on one customer completes. -/
inductive DeliverHow where
  | enqueuedNow
  | enqueuedAfterWait
  | skippedClosed
  deriving DecidableEq, Repr

/-- chanels.py ChanelCustomer._send: a closed customer silently receives
nothing; otherwise put_nowait succeeds immediately when the buffer has free
capacity, and on QueueFull the sender suspends in put until the consumer
frees space, after which the item is enqueued. The buffer is shown with the
item already appended in the after-wait case; the reads that freed the
space are modelled separately. -/
def ChanelCustomer._send {α : Type} (c : ChanelCustomer α) (data : α) :
    ChanelCustomer α × DeliverHow :=
  if c.cloused then (c, DeliverHow.skippedClosed)
  else if c.maxsize = 0 ∨ c.buffer.length < c.maxsize then
    ({ c with buffer := c.buffer ++ [data] }, DeliverHow.enqueuedNow)
  else
    ({ c with buffer := c.buffer ++ [data] }, DeliverHow.enqueuedAfterWait)

/-- chanels.py Chanel: the ordered subscriber registry, the default buffer
capacity and the strict flag. -/
structure Chanel (α : Type) where
  customers : List (ChanelCustomer α)
  size : Nat
  strict : Bool
  deriving DecidableEq, Repr

/-- chanels.py Chanel.is_closed: true when no customer is connected. -/
def Chanel.is_closed {α : Type} (ch : Chanel α) : Bool :=
  ch.customers.length == 0

/-- chanels.py Chanel.send: raise ChanelCloused when strict and closed;
otherwise deliver the item to every connected customer concurrently in a
task group; the call returns once every per-customer _send has completed.
Returns the updated channel and the per-customer delivery outcomes, in
registry order. -/
def Chanel.send {α : Type} (ch : Chanel α) (data : α) :
    Except PyError (Chanel α × List DeliverHow) :=
  if ch.strict && ch.is_closed then Except.error PyError.chanelCloused
  else Except.ok
    ({ ch with customers := ch.customers.map (fun c => (c._send data).1) },
      ch.customers.map (fun c => (c._send data).2))

/-- chanels.py Chanel.connect: create a customer with the requested (or
default) capacity and append it to the registry. -/
def Chanel.connect {α : Type} (ch : Chanel α) (newId : Nat) (size : Option Nat) :
    Chanel α × ChanelCustomer α :=
  let c : ChanelCustomer α := ⟨newId, size.getD ch.size, [], false⟩
  ({ ch with customers := ch.customers ++ [c] }, c)

/-- Python list.remove: drop the first element satisfying p, raising
ValueError when none does. -/
def pyListRemove {α : Type} (p : α → Bool) : List α → Except PyError (List α)
  | [] => Except.error (PyError.valueError "list.remove(x): x not in list")
  | x :: rest =>
    if p x then Except.ok rest
    else
      match pyListRemove p rest with
      | Except.error e => Except.error e
      | Except.ok r => Except.ok (x :: r)

/-- chanels.py Chanel.disconnect: self.__customers.remove(customer), with
customers compared by identity. -/
def Chanel.disconnect {α : Type} (ch : Chanel α) (cid : Nat) :
    Except PyError (Chanel α) :=
  match pyListRemove (fun c => c.id == cid) ch.customers with
  | Except.error e => Except.error e
  | Except.ok cs => Except.ok { ch with customers := cs }

/-- chanels.py ChanelCustomer.reset: get_nowait in a loop until QueueEmpty,
dropping every buffered item. -/
def ChanelCustomer.reset {α : Type} (c : ChanelCustomer α) : ChanelCustomer α :=
  { c with buffer := [] }

/-- chanels.py ChanelCustomer.close: set the closed flag, then detach from
the channel, then drain the buffer. When disconnect raises (the customer is
no longer in the registry) the exception propagates after the flag was
already set and before the drain, leaving channel and buffer as they were. -/
def ChanelCustomer.close {α : Type} (ch : Chanel α) (c : ChanelCustomer α) :
    Option PyError × Chanel α × ChanelCustomer α :=
  let c1 := { c with cloused := true }
  match ch.disconnect c1.id with
  | Except.error e => (some e, ch, c1)
  | Except.ok ch1 => (none, ch1, c1.reset)

/-- Outcome of chanels.py ChanelCustomer.read: raise ChanelCustomerCloused,
return a buffered item, or suspend in __buffer.get() until data arrives. -/
inductive ReadResult (α : Type) where
  | raised
  | got (x : α)
  | suspendedOnEmpty
  deriving DecidableEq, Repr

/-- chanels.py ChanelCustomer.read: raise when closed with an empty buffer;
otherwise get_nowait, falling back on awaiting get when the buffer is
empty. -/
def ChanelCustomer.read {α : Type} (c : ChanelCustomer α) :
    ReadResult α × ChanelCustomer α :=
  if c.cloused && c.buffer.isEmpty then (ReadResult.raised, c)
  else
    match c.buffer with
    | x :: rest => (ReadResult.got x, { c with buffer := rest })
    | [] => (ReadResult.suspendedOnEmpty, c)

/-- Outcome of chanels.py ChanelCustomer.__anext__. -/
inductive AnextResult (α : Type) where
  | item (x : α)
  | stopAsyncIteration
  | suspendedOnEmpty
  deriving DecidableEq, Repr

/-- chanels.py ChanelCustomer.__anext__: delegate to read, translating
ChanelCustomerCloused into StopAsyncIteration. -/
def ChanelCustomer.anext {α : Type} (c : ChanelCustomer α) :
    AnextResult α × ChanelCustomer α :=
  match c.read with
  | (ReadResult.raised, c1) => (AnextResult.stopAsyncIteration, c1)
  | (ReadResult.got x, c1) => (AnextResult.item x, c1)
  | (ReadResult.suspendedOnEmpty, c1) => (AnextResult.suspendedOnEmpty, c1)

lemma pyListRemove_countP_zero {α : Type} (p : α → Bool) (l : List α)
    (h : l.countP p = 0) :
    pyListRemove p l = Except.error (PyError.valueError "list.remove(x): x not in list") := by
  induction l with
  | nil => rfl
  | cons x rest ih =>
    rw [List.countP_cons] at h
    by_cases hx : p x
    · simp [hx] at h
    · have hrest : rest.countP p = 0 := by simpa [hx] using h
      simp [pyListRemove, hx, ih hrest]

lemma pyListRemove_countP_one {α : Type} (p : α → Bool) (l : List α)
    (h : l.countP p = 1) :
    ∃ r, pyListRemove p l = Except.ok r ∧ r.countP p = 0 := by
  induction l with
  | nil => simp at h
  | cons x rest ih =>
    rw [List.countP_cons] at h
    by_cases hx : p x
    · have hrest : rest.countP p = 0 := by rw [if_pos hx] at h; omega
      exact ⟨rest, by simp [pyListRemove, hx], hrest⟩
    · have hrest : rest.countP p = 1 := by simpa [hx] using h
      obtain ⟨r, hr, hr0⟩ := ih hrest
      exact ⟨x :: r, by simp [pyListRemove, hx, hr],
        by simp [List.countP_cons, hx, hr0]⟩

/--
C5 counterexample: a subscriber connected to its channel is closed once,
successfully; calling close a second time raises ValueError, because close
again calls Chanel.disconnect and list.remove no longer finds the
subscriber in the registry. So a second close does not succeed.
-/
theorem chanelCustomer_second_close_raises :
    (ChanelCustomer.close (⟨[⟨5, 2, [1, 2], false⟩], 2, true⟩ : Chanel Nat)
      ⟨5, 2, [1, 2], false⟩).1 = none
    ∧ (ChanelCustomer.close
        (ChanelCustomer.close (⟨[⟨5, 2, [1, 2], false⟩], 2, true⟩ : Chanel Nat)
          ⟨5, 2, [1, 2], false⟩).2.1
        (ChanelCustomer.close (⟨[⟨5, 2, [1, 2], false⟩], 2, true⟩ : Chanel Nat)
          ⟨5, 2, [1, 2], false⟩).2.2).1
      = some (PyError.valueError "list.remove(x): x not in list") :=
  ⟨rfl, rfl⟩

/--
C5 amended: for a subscriber present exactly once in its channel registry,
close() marks it closed, detaches it from the registry and discards all
buffered-but-unread items; but close is NOT idempotent: a second close on
the same subscriber raises ValueError from the registry removal (the
subscriber is no longer in the list), leaving the subscriber closed with
its already-empty buffer.
-/
theorem chanelCustomer_close_detaches_and_drains_once {α : Type}
    (ch : Chanel α) (c : ChanelCustomer α)
    (h : ch.customers.countP (fun x => x.id == c.id) = 1) :
    ∃ ch1, ChanelCustomer.close ch c = (none, ch1, ⟨c.id, c.maxsize, [], true⟩)
      ∧ ch1.customers.countP (fun x => x.id == c.id) = 0
      ∧ ch1.size = ch.size ∧ ch1.strict = ch.strict
      ∧ ChanelCustomer.close ch1 ⟨c.id, c.maxsize, [], true⟩
          = (some (PyError.valueError "list.remove(x): x not in list"), ch1,
              ⟨c.id, c.maxsize, [], true⟩) := by
  obtain ⟨r, hr, hr0⟩ := pyListRemove_countP_one (fun x => x.id == c.id) ch.customers h
  have herr := pyListRemove_countP_zero (fun x => x.id == c.id) r hr0
  refine ⟨{ ch with customers := r }, ?_, hr0, rfl, rfl, ?_⟩
  · simp [ChanelCustomer.close, Chanel.disconnect, hr, ChanelCustomer.reset]
  · simp [ChanelCustomer.close, Chanel.disconnect, herr, ChanelCustomer.reset]

/-- Witness for the amended close theorem: a channel with the single
subscriber 7 holding one buffered item. -/
theorem chanelCustomer_close_detaches_and_drains_once_witness :
    ∃ ch1, ChanelCustomer.close (⟨[⟨7, 3, [10], false⟩], 3, false⟩ : Chanel Nat)
        ⟨7, 3, [10], false⟩ = (none, ch1, ⟨7, 3, [], true⟩)
      ∧ ch1.customers.countP (fun x => x.id == 7) = 0
      ∧ ch1.size = 3 ∧ ch1.strict = false
      ∧ ChanelCustomer.close ch1 ⟨7, 3, [], true⟩
          = (some (PyError.valueError "list.remove(x): x not in list"), ch1,
              ⟨7, 3, [], true⟩) :=
  chanelCustomer_close_detaches_and_drains_once
    (⟨[⟨7, 3, [10], false⟩], 3, false⟩ : Chanel Nat) ⟨7, 3, [10], false⟩ (by decide)

/--
C7: publishing on a strict channel with zero subscribers raises
ChanelCloused; on a non-strict channel with zero subscribers it is a silent
no-op returning the channel unchanged with no deliveries; and with at least
one subscriber connected it returns normally with the item enqueued into
the buffer of every open subscriber connected at call time.
-/
theorem chanel_send_strict_empty_and_delivery {α : Type} (ch : Chanel α) (data : α) :
    (ch.strict = true → ch.customers = [] →
      ch.send data = Except.error PyError.chanelCloused)
    ∧ (ch.strict = false → ch.customers = [] → ch.send data = Except.ok (ch, []))
    ∧ (ch.customers ≠ [] →
        ch.send data = Except.ok
          ({ ch with customers := ch.customers.map (fun c => (c._send data).1) },
            ch.customers.map (fun c => (c._send data).2))
        ∧ ∀ c ∈ ch.customers, c.cloused = false →
            (c._send data).1.buffer = c.buffer ++ [data]) := by
  refine ⟨?_, ?_, ?_⟩
  · intro hs hc
    simp [Chanel.send, Chanel.is_closed, hs, hc]
  · intro hs hc
    obtain ⟨cs, sz, st⟩ := ch
    simp only at hs hc
    subst hs hc
    simp [Chanel.send, Chanel.is_closed]
  · intro hne
    have hlen : ch.customers.length ≠ 0 := by
      simpa [List.length_eq_zero] using hne
    constructor
    · simp [Chanel.send, Chanel.is_closed, hlen]
    · intro c _ hcl
      by_cases hcap : c.maxsize = 0 ∨ c.buffer.length < c.maxsize <;>
        simp [ChanelCustomer._send, hcl, hcap]

/-- Witness for the send theorem: the strict-empty, lax-empty and
two-subscriber instances. -/
theorem chanel_send_strict_empty_and_delivery_witness :
    Chanel.send (⟨[], 0, true⟩ : Chanel Nat) 5 = Except.error PyError.chanelCloused
    ∧ Chanel.send (⟨[], 0, false⟩ : Chanel Nat) 5
        = Except.ok ((⟨[], 0, false⟩ : Chanel Nat), [])
    ∧ (ChanelCustomer._send (⟨1, 0, [], false⟩ : ChanelCustomer Nat) 5).1.buffer = [5] :=
  ⟨(chanel_send_strict_empty_and_delivery (⟨[], 0, true⟩ : Chanel Nat) 5).1 rfl rfl,
    (chanel_send_strict_empty_and_delivery (⟨[], 0, false⟩ : Chanel Nat) 5).2.1 rfl rfl,
    ((chanel_send_strict_empty_and_delivery
        (⟨[⟨1, 0, [], false⟩], 0, true⟩ : Chanel Nat) 5).2.2 (by simp)).2
      ⟨1, 0, [], false⟩ (by simp) rfl⟩

/-- Publish a sequence of items, item by item. -/
def Chanel.sendAll {α : Type} (ch : Chanel α) : List α → Except PyError (Chanel α)
  | [] => Except.ok ch
  | x :: rest =>
    match ch.send x with
    | Except.error e => Except.error e
    | Except.ok (ch1, _) => ch1.sendAll rest

/-- The cumulative effect of a publish sequence on one customer, in
isolation: fold _send over the items. -/
def sendAllCust {α : Type} (items : List α) (c : ChanelCustomer α) : ChanelCustomer α :=
  items.foldl (fun acc x => (acc._send x).1) c

lemma Chanel.send_ok {α : Type} (ch : Chanel α) (data : α) (h : ch.customers ≠ []) :
    ch.send data = Except.ok
      ({ ch with customers := ch.customers.map (fun c => (c._send data).1) },
        ch.customers.map (fun c => (c._send data).2)) := by
  have hlen : ch.customers.length ≠ 0 := by simpa [List.length_eq_zero] using h
  simp [Chanel.send, Chanel.is_closed, hlen]

lemma Chanel.sendAll_ok {α : Type} (items : List α) (ch : Chanel α)
    (h : ch.customers ≠ []) :
    ch.sendAll items
      = Except.ok { ch with customers := ch.customers.map (sendAllCust items) } := by
  induction items generalizing ch with
  | nil =>
    have hmap : ch.customers.map (sendAllCust []) = ch.customers := by
      induction ch.customers with
      | nil => rfl
      | cons a l ihl => simpa [sendAllCust] using ihl
    simp [Chanel.sendAll, hmap]
  | cons x rest ih =>
    have hne1 : (ch.customers.map (fun c => (c._send x).1)) ≠ [] := by
      simpa using h
    have := ih { ch with customers := ch.customers.map (fun c => (c._send x).1) } hne1
    simp only [Chanel.sendAll, ch.send_ok x h, this, List.map_map]
    rfl

lemma sendAllCust_open {α : Type} (items : List α) (c : ChanelCustomer α)
    (h : c.cloused = false) :
    sendAllCust items c = { c with buffer := c.buffer ++ items } := by
  induction items generalizing c with
  | nil => simp [sendAllCust]
  | cons x rest ih =>
    have hsend : (c._send x).1 = { c with buffer := c.buffer ++ [x] } := by
      by_cases hcap : c.maxsize = 0 ∨ c.buffer.length < c.maxsize <;>
        simp [ChanelCustomer._send, h, hcap]
    have hstep : sendAllCust (x :: rest) c = sendAllCust rest ((c._send x).1) := rfl
    rw [hstep, hsend, ih { c with buffer := c.buffer ++ [x] } h]
    simp

/--
C9: publishing a sequence of items to a channel with at least one
subscriber returns normally, leaving each subscriber in the state obtained
by folding delivery over that subscriber alone — so each subscriber's final
state is a function of its own prior state and the published items only,
unaffected by the other subscribers; every open subscriber ends with
exactly the published items appended to its buffer in publish order; and
within one delivery, a subscriber with free capacity receives the item
immediately while only a subscriber whose buffer is at capacity makes the
publisher suspend, waiting on that subscriber specifically.
-/
theorem chanel_fanout_fifo_and_isolated_backpressure {α : Type}
    (ch : Chanel α) (items : List α) (h : ch.customers ≠ []) :
    (ch.sendAll items
      = Except.ok { ch with customers := ch.customers.map (sendAllCust items) })
    ∧ (∀ c ∈ ch.customers, c.cloused = false →
        sendAllCust items c = { c with buffer := c.buffer ++ items })
    ∧ (∀ c ∈ ch.customers, ∀ data : α, c.cloused = false →
        (c.maxsize = 0 ∨ c.buffer.length < c.maxsize) →
          (c._send data).2 = DeliverHow.enqueuedNow)
    ∧ (∀ c ∈ ch.customers, ∀ data : α, c.cloused = false →
        c.maxsize ≠ 0 → c.maxsize ≤ c.buffer.length →
          (c._send data).2 = DeliverHow.enqueuedAfterWait) := by
  refine ⟨Chanel.sendAll_ok items ch h,
    fun c _ hc => sendAllCust_open items c hc, ?_, ?_⟩
  · intro c _ data hc hcap
    simp [ChanelCustomer._send, hc, hcap]
  · intro c _ data hc h0 hfull
    have hcap : ¬(c.maxsize = 0 ∨ c.buffer.length < c.maxsize) := by omega
    simp [ChanelCustomer._send, hc, hcap]

/-- Witness for the fan-out theorem: subscriber 1 is unbounded, subscriber
2 has capacity 1 and is already full; publishing 4 then 5 appends both
items to both buffers in order, subscriber 1 receiving each immediately and
subscriber 2 stalling the publisher. -/
theorem chanel_fanout_fifo_and_isolated_backpressure_witness :
    Chanel.sendAll (⟨[⟨1, 0, [], false⟩, ⟨2, 1, [9], false⟩], 0, true⟩ : Chanel Nat) [4, 5]
      = Except.ok (⟨[⟨1, 0, [4, 5], false⟩, ⟨2, 1, [9, 4, 5], false⟩], 0, true⟩ : Chanel Nat)
    ∧ (ChanelCustomer._send (⟨1, 0, [], false⟩ : ChanelCustomer Nat) 4).2
        = DeliverHow.enqueuedNow
    ∧ (ChanelCustomer._send (⟨2, 1, [9], false⟩ : ChanelCustomer Nat) 4).2
        = DeliverHow.enqueuedAfterWait := by
  have h := chanel_fanout_fifo_and_isolated_backpressure
    (⟨[⟨1, 0, [], false⟩, ⟨2, 1, [9], false⟩], 0, true⟩ : Chanel Nat) [4, 5] (by simp)
  refine ⟨h.1.trans (by rfl), ?_, ?_⟩
  · exact h.2.2.1 ⟨1, 0, [], false⟩ (by simp) 4 rfl (by simp)
  · exact h.2.2.2 ⟨2, 1, [9], false⟩ (by simp) 4 rfl (by simp) (by simp)

/--
C10: read raises ChanelCustomerCloused exactly when the subscriber is
closed with an empty buffer; a non-empty buffer yields its front item (FIFO)
whether or not the subscriber is closed; an open subscriber with an empty
buffer suspends awaiting data; and the async-iteration wrapper __anext__
yields StopAsyncIteration exactly when read raises, translating the
end-of-stream error instead of propagating it.
-/
theorem chanelCustomer_read_and_anext_semantics {α : Type} (c : ChanelCustomer α) :
    ((c.read).1 = ReadResult.raised ↔ (c.cloused = true ∧ c.buffer = []))
    ∧ (∀ x rest, c.buffer = x :: rest →
        c.read = (ReadResult.got x, { c with buffer := rest }))
    ∧ (c.cloused = false → c.buffer = [] →
        c.read = (ReadResult.suspendedOnEmpty, c))
    ∧ ((c.anext).1 = AnextResult.stopAsyncIteration ↔ (c.read).1 = ReadResult.raised) := by
  obtain ⟨i, m, buf, cl⟩ := c
  cases cl <;> cases buf <;>
    simp [ChanelCustomer.read, ChanelCustomer.anext]

/-- Witness for the read theorem: a closed drained subscriber raises and
its iteration wrapper stops; a closed subscriber with buffered items still
yields them in order. -/
theorem chanelCustomer_read_and_anext_semantics_witness :
    ((ChanelCustomer.read (⟨3, 0, [], true⟩ : ChanelCustomer Nat)).1 = ReadResult.raised)
    ∧ ChanelCustomer.read (⟨3, 0, [8, 9], true⟩ : ChanelCustomer Nat)
        = (ReadResult.got 8, ⟨3, 0, [9], true⟩)
    ∧ ChanelCustomer.read (⟨3, 0, [], false⟩ : ChanelCustomer Nat)
        = (ReadResult.suspendedOnEmpty, ⟨3, 0, [], false⟩)
    ∧ (ChanelCustomer.anext (⟨3, 0, [], true⟩ : ChanelCustomer Nat)).1
        = AnextResult.stopAsyncIteration :=
  ⟨(chanelCustomer_read_and_anext_semantics (⟨3, 0, [], true⟩ : ChanelCustomer Nat)).1.mpr
      ⟨rfl, rfl⟩,
    (chanelCustomer_read_and_anext_semantics
      (⟨3, 0, [8, 9], true⟩ : ChanelCustomer Nat)).2.1 8 [9] rfl,
    (chanelCustomer_read_and_anext_semantics
      (⟨3, 0, [], false⟩ : ChanelCustomer Nat)).2.2.1 rfl rfl,
    (chanelCustomer_read_and_anext_semantics
      (⟨3, 0, [], true⟩ : ChanelCustomer Nat)).2.2.2.mpr
      ((chanelCustomer_read_and_anext_semantics
        (⟨3, 0, [], true⟩ : ChanelCustomer Nat)).1.mpr ⟨rfl, rfl⟩)⟩

end Aioservicekit
